import Mathlib

/-!
Shallow embedding of the elevation-profile engine of src/backend/server.js
(the /api/elevation-profile handler and its helper closures), together with
theorems checking the specification's claims about it.

Modelling conventions:
* JavaScript float64 values are modelled as real numbers; NaN and the
  Infinity sentinels used to initialise the running min/max are modelled
  with EReal top/bottom for the accumulator state.
* JavaScript null/undefined results are modelled with Option.
* proj4 coordinate transforms are external library calls; they are
  modelled as function fields of the context, returning none where the
  library would throw (the code catches those throws).
* JavaScript strings (the dtmPath request field) are modelled as lists of
  characters so that path splitting is executable.
-/

open Classical

noncomputable section

/-- JavaScript Math.atan2 (y, x) on real inputs. -/
def atan2 (y x : ℝ) : ℝ :=
  if 0 < x then Real.arctan (y / x)
  else if x < 0 then
    (if 0 ≤ y then Real.arctan (y / x) + Real.pi else Real.arctan (y / x) - Real.pi)
  else
    (if 0 < y then Real.pi / 2 else if y < 0 then -(Real.pi / 2) else 0)

/-- Loaded DTM raster state of the elevation-profile handler
(server.js lines 427-466): dimensions, bounding box, raster values,
no-data sentinel, GeoTIFF model transform tags, resolved source
projection, and the proj4 transforms (modelled as functions that return
none where proj4 would throw). -/
structure Ctx where
  width : ℕ
  height : ℕ
  minX : ℝ
  minY : ℝ
  maxX : ℝ
  maxY : ℝ
  elevationData : List ℝ
  noDataValue : Option ℝ
  modelPixelScale : Option (ℝ × ℝ × ℝ)
  modelTiepoint : Option (ℝ × ℝ × ℝ × ℝ × ℝ × ℝ)
  sourceProj : Option (List Char)
  toNative : ℝ → ℝ → Option (ℝ × ℝ)
  toWGS : ℝ → ℝ → Option (ℝ × ℝ)

/-- Projected-coordinates heuristic (server.js lines 435-436):
bounds are projected when any of them exceeds the geographic ranges. -/
def Ctx.isProjected (c : Ctx) : Prop :=
  |c.minX| > 180 ∨ |c.minY| > 90 ∨ |c.maxX| > 180 ∨ |c.maxY| > 90

/-- geoToPixel helper (server.js lines 469-502): optional reprojection into
the raster's native system, then either the tiepoint/scale affine inverse or
the bounding-box fallback, rounding to integer pixel indices. -/
def geoToPixel (c : Ctx) (lon lat : ℝ) : Option (ℤ × ℤ) :=
  let step : Option (ℝ × ℝ) :=
    if c.isProjected ∧ c.sourceProj.isSome then c.toNative lon lat else some (lon, lat)
  match step with
  | none => none
  | some (x, y) =>
    match c.modelPixelScale, c.modelTiepoint with
    | some (scaleX, scaleY, _), some (tieI, tieJ, _, geoX, geoY, _) =>
      some (round ((x - geoX) / scaleX + tieI), round ((geoY - y) / scaleY + tieJ))
    | _, _ =>
      some (round ((x - c.minX) / (c.maxX - c.minX) * (c.width : ℝ)),
            round ((c.maxY - y) / (c.maxY - c.minY) * (c.height : ℝ)))

/-- calculateDistance helper (server.js lines 505-517): Haversine distance
in meters between two [lon, lat] pairs. -/
def calculateDistance (coord1 coord2 : ℝ × ℝ) : ℝ :=
  let R : ℝ := 6371000
  let dLat := (coord2.2 - coord1.2) * Real.pi / 180
  let dLon := (coord2.1 - coord1.1) * Real.pi / 180
  let a := Real.sin (dLat / 2) * Real.sin (dLat / 2) +
    Real.cos (coord1.2 * Real.pi / 180) * Real.cos (coord2.2 * Real.pi / 180) *
    Real.sin (dLon / 2) * Real.sin (dLon / 2)
  let c := 2 * atan2 (Real.sqrt a) (Real.sqrt (1 - a))
  R * c

/-- Number of interpolated points for one segment
(server.js line 523): max(2, ceil(distance / intervalMeters)). -/
def numPointsFor (s e : ℝ × ℝ) (intervalMeters : ℝ) : ℕ :=
  max 2 (⌈calculateDistance s e / intervalMeters⌉.toNat)

/-- interpolateSegment helper (server.js lines 521-534): numPoints points
linearly interpolated in (lon, lat) space from s to e inclusive. -/
def interpolateSegment (s e : ℝ × ℝ) (intervalMeters : ℝ) : List (ℝ × ℝ) :=
  let numPoints := numPointsFor s e intervalMeters
  (List.range numPoints).map (fun k : ℕ =>
    let t : ℝ := (k : ℝ) / ((numPoints : ℝ) - 1)
    (s.1 + (e.1 - s.1) * t, s.2 + (e.2 - s.2) * t))

/-- allPoints assembly (server.js lines 730-747): the first vertex, then for
each consecutive vertex pair the interpolated segment points with the
duplicate join point (index 0 of each segment) dropped. -/
def densify (coordinates : List (ℝ × ℝ)) (samplingInterval : ℝ) : List (ℝ × ℝ) :=
  match coordinates with
  | [] => []
  | c0 :: rest =>
    c0 :: (List.zip (c0 :: rest) rest).flatMap
      (fun se => (interpolateSegment se.1 se.2 samplingInterval).drop 1)

/-- sampleElevation helper (server.js lines 537-563): resolve the pixel,
clamp it into the valid range, read the row-major raster value, and treat
the no-data sentinel (and the JS NaN/non-finite artifacts, which include
an out-of-array read yielding undefined) as missing. -/
def sampleElevation (c : Ctx) (lon lat : ℝ) : Option ℝ :=
  match geoToPixel c lon lat with
  | none => none
  | some (pixelX, pixelY) =>
    let clampedX := max 0 (min ((c.width : ℤ) - 1) pixelX)
    let clampedY := max 0 (min ((c.height : ℤ) - 1) pixelY)
    match c.elevationData[(clampedY * (c.width : ℤ) + clampedX).toNat]? with
    | none => none
    | some elevation =>
      if c.noDataValue = some elevation then none else some elevation

/-- Running min/max accumulator of getMinMaxElevationInRadius
(server.js lines 598-600): minElevation starts at Infinity, maxElevation at
-Infinity (EReal top/bottom), hasValidData at false. -/
structure MMState where
  minE : EReal
  maxE : EReal
  hasValid : Bool

/-- Initial accumulator (server.js lines 598-600). -/
def mmInit : MMState := ⟨⊤, ⊥, false⟩

/-- Min/max update on a valid elevation (server.js lines 692-694 and
714-716). -/
def incorporate (elevation : ℝ) (s : MMState) : MMState :=
  ⟨if (elevation : EReal) < s.minE then (elevation : EReal) else s.minE,
   if s.maxE < (elevation : EReal) then (elevation : EReal) else s.maxE,
   true⟩

/-- Index list of a JavaScript loop for (v = a; v <= b; v += step) with a
positive integer step. -/
def iterIdxs (a b step : ℤ) : List ℤ :=
  if a ≤ b ∧ 0 < step then
    (List.range ((b - a).toNat / step.toNat + 1)).map (fun k => a + (k : ℤ) * step)
  else []

/-- Geographic coordinate recovered for a stepped-grid pixel
(server.js lines 646-669): forward tiepoint/scale transform then optional
reprojection back to WGS84, or the bounding-box fallback; none models the
caught proj4 throw (continue). -/
def steppedSampleGeo (c : Ctx) (px py : ℤ) : Option (ℝ × ℝ) :=
  match c.modelPixelScale, c.modelTiepoint with
  | some (scaleX, scaleY, _), some (tieI, tieJ, _, geoX, geoY, _) =>
    let geoXc := ((px : ℝ) - tieI) * scaleX + geoX
    let geoYc := geoY - ((py : ℝ) - tieJ) * scaleY
    if c.isProjected ∧ c.sourceProj.isSome then c.toWGS geoXc geoYc
    else some (geoXc, geoYc)
  | _, _ =>
    some (c.minX + ((px : ℝ) / (c.width : ℝ)) * (c.maxX - c.minX),
          c.maxY - ((py : ℝ) / (c.height : ℝ)) * (c.maxY - c.minY))

/-- Body of the stepped-grid loop (server.js lines 641-696): recover the
pixel's geographic coordinate, discard it when its Haversine distance to the
query point exceeds radiusMeters, bounds-check the raster index, and skip
missing values; otherwise update the running min/max. -/
def steppedBody (c : Ctx) (centerLon centerLat radiusMeters : ℝ)
    (px py : ℤ) (s : MMState) : MMState :=
  match steppedSampleGeo c px py with
  | none => s
  | some sampleGeo =>
    if calculateDistance (centerLon, centerLat) sampleGeo > radiusMeters then s
    else
      let index := py * (c.width : ℤ) + px
      if index < 0 ∨ (c.elevationData.length : ℤ) ≤ index then s
      else
        match c.elevationData[index.toNat]? with
        | none => s
        | some elevation =>
          if c.noDataValue = some elevation then s else incorporate elevation s

/-- Body of the fixed neighbor probe (server.js lines 701-718): skip pixels
outside the raster, bounds-check the index, skip missing values, otherwise
update the running min/max.  Note: no distance check is performed here. -/
def probeBody (c : Ctx) (px py : ℤ) (s : MMState) : MMState :=
  if px < 0 ∨ (c.width : ℤ) ≤ px ∨ py < 0 ∨ (c.height : ℤ) ≤ py then s
  else
    let index := py * (c.width : ℤ) + px
    if index < 0 ∨ (c.elevationData.length : ℤ) ≤ index then s
    else
      match c.elevationData[index.toNat]? with
      | none => s
      | some elevation =>
        if c.noDataValue = some elevation then s else incorporate elevation s

/-- Radius-window corner pixels of getMinMaxElevationInRadius
(server.js lines 571-585): the radius converted to degrees with the local
scale, and the window corners mapped through geoToPixel. -/
def mmCorners (c : Ctx) (centerLon centerLat radiusMeters : ℝ) :
    Option (ℤ × ℤ) × Option (ℤ × ℤ) :=
  let metersPerDegreeLat : ℝ := 111320
  let metersPerDegreeLon : ℝ := 111320 * Real.cos (centerLat * Real.pi / 180)
  let radiusDegLat := radiusMeters / metersPerDegreeLat
  let radiusDegLon := radiusMeters / metersPerDegreeLon
  (geoToPixel c (centerLon - radiusDegLon) (centerLat - radiusDegLat),
   geoToPixel c (centerLon + radiusDegLon) (centerLat + radiusDegLat))

/-- Meters-per-pixel estimate (server.js lines 610-634). -/
def mmMetersPerPixel (c : Ctx) (centerLat : ℝ) : ℝ × ℝ :=
  match c.modelPixelScale with
  | some (scaleX, scaleY, _) =>
    if c.isProjected then (scaleX, scaleY)
    else (scaleX * 111320 * Real.cos (centerLat * Real.pi / 180), scaleY * 111320)
  | none =>
    let pixelWidth := c.maxX - c.minX
    let pixelHeight := c.maxY - c.minY
    if c.isProjected then (pixelWidth / (c.width : ℝ), pixelHeight / (c.height : ℝ))
    else ((pixelWidth / (c.width : ℝ)) * 111320 * Real.cos (centerLat * Real.pi / 180),
          (pixelHeight / (c.height : ℝ)) * 111320)

/-- Adaptive step size (server.js lines 637-638). -/
def mmStepSize (c : Ctx) (centerLat radiusMeters : ℝ)
    (minPixelX maxPixelX minPixelY maxPixelY : ℤ) : ℤ :=
  let mpp := mmMetersPerPixel c centerLat
  let estimatedPixelsInRadius := max 10 (min 200 (radiusMeters / min mpp.1 mpp.2))
  max 1 ⌊Real.sqrt ((((maxPixelX - minPixelX) * (maxPixelY - minPixelY) : ℤ) : ℝ) /
    estimatedPixelsInRadius)⌋

/-- Stepped-grid double loop (server.js lines 641-696). -/
def runGrid (c : Ctx) (centerLon centerLat radiusMeters : ℝ)
    (minPixelX maxPixelX minPixelY maxPixelY stepSize : ℤ) (s0 : MMState) : MMState :=
  (iterIdxs minPixelY maxPixelY stepSize).foldl
    (fun s py => (iterIdxs minPixelX maxPixelX stepSize).foldl
      (fun s px => steppedBody c centerLon centerLat radiusMeters px py s) s) s0

/-- Fixed neighbor probe double loop (server.js lines 701-718): dy and dx
each range over -2..2 around the center pixel. -/
def runProbe (c : Ctx) (centerX centerY : ℤ) (s0 : MMState) : MMState :=
  (iterIdxs (-2) 2 1).foldl
    (fun s dy => (iterIdxs (-2) 2 1).foldl
      (fun s dx => probeBody c (centerX + dx) (centerY + dy) s) s) s0

/-- Core accumulator run of getMinMaxElevationInRadius
(server.js lines 592-718): clamp the window corners into the valid pixel
range, pick the adaptive step size, run the stepped-grid loop and then the
fixed neighbor probe around the center pixel (centerX/centerY are Math.round
of the already-integral pixel indices). -/
def mmCore (c : Ctx) (centerLon centerLat radiusMeters : ℝ)
    (minPixel maxPixel centerPixel : ℤ × ℤ) : MMState :=
  let minPixelX := max 0 (min ((c.width : ℤ) - 1) minPixel.1)
  let maxPixelX := max 0 (min ((c.width : ℤ) - 1) maxPixel.1)
  let minPixelY := max 0 (min ((c.height : ℤ) - 1) minPixel.2)
  let maxPixelY := max 0 (min ((c.height : ℤ) - 1) maxPixel.2)
  let stepSize := mmStepSize c centerLat radiusMeters minPixelX maxPixelX minPixelY maxPixelY
  runProbe c centerPixel.1 centerPixel.2
    (runGrid c centerLon centerLat radiusMeters
      minPixelX maxPixelX minPixelY maxPixelY stepSize mmInit)

/-- Return step of getMinMaxElevationInRadius (server.js lines 720-724):
null/null when no valid sample was found, else the accumulated min/max. -/
def mmFinish (s : MMState) : Option ℝ × Option ℝ :=
  if s.hasValid then (some s.minE.toReal, some s.maxE.toReal) else (none, none)

/-- getMinMaxElevationInRadius helper (server.js lines 566-725). -/
def getMinMaxElevationInRadius (c : Ctx) (centerLon centerLat radiusMeters : ℝ) :
    Option ℝ × Option ℝ :=
  match mmCorners c centerLon centerLat radiusMeters with
  | (some minPixel, some maxPixel) =>
    match geoToPixel c centerLon centerLat with
    | none => (none, none)
    | some centerPixel =>
      mmFinish (mmCore c centerLon centerLat radiusMeters minPixel maxPixel centerPixel)
  | _ => (none, none)

/-- One emitted profile record (server.js lines 781-788): a failed
elevation sample is emitted as 0, and the min/max fields stay undefined
(none) unless both radius statistics are non-null. -/
structure ProfileSample where
  distance : ℝ
  elevation : ℝ
  longitude : ℝ
  latitude : ℝ
  minElevation : Option ℝ
  maxElevation : Option ℝ
deriving DecidableEq

/-- Assemble the record pushed for one sampling point
(server.js lines 763-788). -/
def mkSample (c : Ctx) (radius : ℝ) (p : ℝ × ℝ) (cum : ℝ) : ProfileSample :=
  let elevation := sampleElevation c p.1 p.2
  let result := getMinMaxElevationInRadius c p.1 p.2 radius
  { distance := cum
    elevation := elevation.getD 0
    longitude := p.1
    latitude := p.2
    minElevation := match result with | (some m, some _) => some m | _ => none
    maxElevation := match result with | (some _, some M) => some M | _ => none }

/-- Sampling loop over the tail of allPoints (server.js lines 755-789),
carrying the previous point and the cumulative distance. -/
def buildLoop (c : Ctx) (radius : ℝ) :
    List (ℝ × ℝ) → (ℝ × ℝ) → ℝ → List ProfileSample
  | [], _, _ => []
  | p :: rest, prev, cum =>
    let cum' := cum + calculateDistance prev p
    mkSample c radius p cum' :: buildLoop c radius rest p cum'

/-- Sampling loop over allPoints (server.js lines 752-789): the first point
is emitted with cumulative distance 0. -/
def buildProfileSamples (c : Ctx) (radius : ℝ) (allPoints : List (ℝ × ℝ)) :
    List ProfileSample :=
  match allPoints with
  | [] => []
  | p0 :: rest => mkSample c radius p0 0 :: buildLoop c radius rest p0 0

/-- JavaScript split on the '/' character (dtmPath.split('/') on a string
modelled as a character list). -/
def splitOnSlash (s : List Char) : List (List Char) :=
  s.foldr (fun ch acc =>
    match acc with
    | [] => [[ch]]
    | h :: t => if ch = '/' then [] :: h :: t else (ch :: h) :: t) [[]]

/-- The radiusMeters || 50 default (server.js line 410): absent, null and a
zero value are falsy and fall back to the 50 meter default. -/
def jsOrDefault (radiusMeters : Option ℝ) (d : ℝ) : ℝ :=
  match radiusMeters with
  | none => d
  | some v => if v = 0 then d else v

/-- Fixed sampling interval along the path (server.js line 729). -/
def samplingInterval : ℝ := 5

/-- The /api/elevation-profile handler (server.js lines 397-815) as a pure
function: request validation in source order, then the profile build.  The
files argument models the uploads directory (existsSync + raster load). -/
def elevationProfile (coordinates : Option (List (ℝ × ℝ)))
    (dtmPath : Option (List Char)) (files : List Char → Option Ctx)
    (radiusMeters : Option ℝ) : Except (List Char) (List ProfileSample) :=
  match coordinates with
  | none => .error "Invalid coordinates array".toList
  | some coords =>
    if coords.length < 2 then .error "Invalid coordinates array".toList
    else
      match dtmPath with
      | none => .error "DTM path is required".toList
      | some dtmPath' =>
        if dtmPath' = [] then .error "DTM path is required".toList
        else
          let radius := jsOrDefault radiusMeters 50
          let filename := (splitOnSlash dtmPath').getLastD []
          if filename = [] then .error "Invalid DTM path".toList
          else
            match files filename with
            | none => .error "DTM file not found".toList
            | some c => .ok (buildProfileSamples c radius (densify coords samplingInterval))

end

noncomputable section

/-! General lemmas about the embedded operations. -/

/-- Math.atan2 is nonnegative on the closed first quadrant. -/
lemma atan2_nonneg {y x : ℝ} (hy : 0 ≤ y) (hx : 0 ≤ x) : 0 ≤ atan2 y x := by
  unfold atan2
  rcases lt_or_eq_of_le hx with h | h
  · rw [if_pos h]
    have := Real.arctan_strictMono.monotone (div_nonneg hy h.le)
    simpa [Real.arctan_zero] using this
  · rw [if_neg (by linarith), if_neg (by linarith)]
    rcases lt_or_eq_of_le hy with hy' | hy'
    · rw [if_pos hy']
      positivity
    · rw [if_neg (by linarith), if_neg (by linarith)]

/-- The Haversine distance of a point to itself is zero. -/
lemma calculateDistance_self (p : ℝ × ℝ) : calculateDistance p p = 0 := by
  simp [calculateDistance, atan2, Real.arctan_zero]

/-- The core Haversine expression is nonnegative for every value of the
intermediate a term. -/
lemma haversine_core_nonneg (a : ℝ) :
    0 ≤ (6371000 : ℝ) * (2 * atan2 (Real.sqrt a) (Real.sqrt (1 - a))) := by
  have h := atan2_nonneg (Real.sqrt_nonneg a) (Real.sqrt_nonneg (1 - a))
  linarith

/-- The Haversine distance helper never returns a negative value. -/
lemma calculateDistance_nonneg (p q : ℝ × ℝ) : 0 ≤ calculateDistance p q := by
  simp only [calculateDistance]
  exact haversine_core_nonneg _

/-- A foldl preserves any predicate its body preserves. -/
lemma foldl_preserve {α σ : Type*} (f : σ → α → σ) (P : σ → Prop)
    (h : ∀ s a, P s → P (f s a)) : ∀ (l : List α) (s : σ), P s → P (l.foldl f s)
  | [], _, hs => hs
  | a :: t, s, hs => foldl_preserve f P h t (f s a) (h s a hs)

/-- A foldl establishes a predicate that some visited element establishes
and every body application preserves. -/
lemma foldl_reach {α σ : Type*} (f : σ → α → σ) (P : σ → Prop) (a : α)
    (hest : ∀ s, P (f s a)) (hpres : ∀ s b, P s → P (f s b)) (l : List α) (s : σ)
    (hmem : a ∈ l) : P (l.foldl f s) := by
  revert hmem
  induction l generalizing s with
  | nil =>
    intro hmem
    exact absurd hmem (List.not_mem_nil a)
  | cons b t ih =>
    intro hmem
    rcases List.mem_cons.mp hmem with rfl | hmem'
    · exact foldl_preserve f P hpres t (f s a) (hest s)
    · exact ih (f s b) hmem'

/-- Structural invariant of the running min/max accumulator: before the
first valid sample it still holds the Infinity sentinels, and afterwards it
holds two real values with min at most max. -/
def MMGood (s : MMState) : Prop :=
  (s.hasValid = false → s.minE = ⊤ ∧ s.maxE = ⊥) ∧
  (s.hasValid = true → ∃ a b : ℝ, s.minE = (a : EReal) ∧ s.maxE = (b : EReal) ∧ a ≤ b)

lemma mmGood_init : MMGood mmInit := by
  constructor
  · intro
    exact ⟨rfl, rfl⟩
  · intro h
    simp [mmInit] at h

lemma mmGood_incorporate (v : ℝ) (s : MMState) (h : MMGood s) :
    MMGood (incorporate v s) := by
  obtain ⟨hf, ht⟩ := h
  constructor
  · intro hc
    simp [incorporate] at hc
  · intro _
    have hminE : (incorporate v s).minE =
        if (v : EReal) < s.minE then (v : EReal) else s.minE := rfl
    have hmaxE : (incorporate v s).maxE =
        if s.maxE < (v : EReal) then (v : EReal) else s.maxE := rfl
    cases hs : s.hasValid with
    | false =>
      obtain ⟨hmin, hmax⟩ := hf hs
      refine ⟨v, v, ?_, ?_, le_refl v⟩
      · rw [hminE, hmin, if_pos (EReal.coe_lt_top v)]
      · rw [hmaxE, hmax, if_pos (EReal.bot_lt_coe v)]
    | true =>
      obtain ⟨a, b, hmin, hmax, hab⟩ := ht hs
      by_cases h1 : (v : EReal) < (a : EReal) <;> by_cases h2 : (b : EReal) < (v : EReal)
      · have h1' : v < a := by exact_mod_cast h1
        have h2' : b < v := by exact_mod_cast h2
        exact absurd (h1'.trans_le hab) (not_lt.mpr h2'.le)
      · refine ⟨v, b, ?_, ?_, ?_⟩
        · rw [hminE, hmin, if_pos h1]
        · rw [hmaxE, hmax, if_neg h2]
        · have h1' : v < a := by exact_mod_cast h1
          linarith
      · refine ⟨a, v, ?_, ?_, ?_⟩
        · rw [hminE, hmin, if_neg h1]
        · rw [hmaxE, hmax, if_pos h2]
        · have h2' : b < v := by exact_mod_cast h2
          linarith
      · refine ⟨a, b, ?_, ?_, hab⟩
        · rw [hminE, hmin, if_neg h1]
        · rw [hmaxE, hmax, if_neg h2]

lemma mmGood_steppedBody (c : Ctx) (lon lat r : ℝ) (px py : ℤ) (s : MMState)
    (h : MMGood s) : MMGood (steppedBody c lon lat r px py s) := by
  simp only [steppedBody]
  repeat' split
  all_goals first
  | exact h
  | exact mmGood_incorporate _ _ h

lemma mmGood_probeBody (c : Ctx) (px py : ℤ) (s : MMState)
    (h : MMGood s) : MMGood (probeBody c px py s) := by
  simp only [probeBody]
  repeat' split
  all_goals first
  | exact h
  | exact mmGood_incorporate _ _ h

lemma mmGood_runGrid (c : Ctx) (lon lat r : ℝ) (ax bx ay cy step : ℤ) (s : MMState)
    (h : MMGood s) : MMGood (runGrid c lon lat r ax bx ay cy step s) := by
  unfold runGrid
  refine foldl_preserve _ MMGood ?_ _ _ h
  intro s1 py hs1
  refine foldl_preserve _ MMGood ?_ _ _ hs1
  intro s2 px hs2
  exact mmGood_steppedBody c lon lat r px py s2 hs2

lemma mmGood_runProbe (c : Ctx) (cx cy : ℤ) (s : MMState)
    (h : MMGood s) : MMGood (runProbe c cx cy s) := by
  unfold runProbe
  refine foldl_preserve _ MMGood ?_ _ _ h
  intro s1 dy hs1
  refine foldl_preserve _ MMGood ?_ _ _ hs1
  intro s2 dx hs2
  exact mmGood_probeBody c (cx + dx) (cy + dy) s2 hs2

lemma mmGood_mmCore (c : Ctx) (lon lat r : ℝ) (minPixel maxPixel centerPixel : ℤ × ℤ) :
    MMGood (mmCore c lon lat r minPixel maxPixel centerPixel) := by
  unfold mmCore
  exact mmGood_runProbe _ _ _ _ (mmGood_runGrid _ _ _ _ _ _ _ _ _ _ mmGood_init)

lemma mmFinish_shape (s : MMState) (h : MMGood s) :
    mmFinish s = (none, none) ∨
    ∃ m M : ℝ, mmFinish s = (some m, some M) ∧ m ≤ M := by
  unfold mmFinish
  cases hv : s.hasValid with
  | false => left; rfl
  | true =>
    obtain ⟨a, b, hmin, hmax, hab⟩ := h.2 hv
    right
    refine ⟨a, b, ?_, hab⟩
    rw [if_pos rfl, hmin, hmax]
    simp

/-- C9: every call to getMinMaxElevationInRadius returns either both fields
null or both fields real values with min at most max; never a mixed result
and never an inverted pair. -/
theorem C9_minmax_result_consistent (c : Ctx) (lon lat r : ℝ) :
    getMinMaxElevationInRadius c lon lat r = (none, none) ∨
    ∃ m M : ℝ, getMinMaxElevationInRadius c lon lat r = (some m, some M) ∧ m ≤ M := by
  unfold getMinMaxElevationInRadius
  rcases hmc : mmCorners c lon lat r with ⟨mp1, mp2⟩
  rcases mp1 with _ | minPixel
  · left; rfl
  rcases mp2 with _ | maxPixel
  · left; rfl
  rcases hcp : geoToPixel c lon lat with _ | centerPixel
  · left; rfl
  exact mmFinish_shape _ (mmGood_mmCore c lon lat r minPixel maxPixel centerPixel)

/-- Every stepped-grid body application either keeps the accumulator or
incorporates one elevation value. -/
lemma steppedBody_cases (c : Ctx) (lon lat r : ℝ) (px py : ℤ) (s : MMState) :
    steppedBody c lon lat r px py s = s ∨
    ∃ v : ℝ, steppedBody c lon lat r px py s = incorporate v s := by
  simp only [steppedBody]
  repeat' split
  all_goals first
  | (left; rfl)
  | (right; exact ⟨_, rfl⟩)

/-- Every probe body application either keeps the accumulator or
incorporates one elevation value. -/
lemma probeBody_cases (c : Ctx) (px py : ℤ) (s : MMState) :
    probeBody c px py s = s ∨
    ∃ v : ℝ, probeBody c px py s = incorporate v s := by
  simp only [probeBody]
  repeat' split
  all_goals first
  | (left; rfl)
  | (right; exact ⟨_, rfl⟩)

/-- Tracking predicate: the accumulator has seen a valid sample and its
running min/max bracket the value e. -/
def MMTracks (e : ℝ) (s : MMState) : Prop :=
  s.hasValid = true ∧ s.minE ≤ (e : EReal) ∧ (e : EReal) ≤ s.maxE

lemma mmTracks_incorporate_self (e : ℝ) (s : MMState) :
    MMTracks e (incorporate e s) := by
  refine ⟨rfl, ?_, ?_⟩
  · show (if (e : EReal) < s.minE then (e : EReal) else s.minE) ≤ (e : EReal)
    split_ifs with h
    · exact le_refl _
    · exact not_lt.mp h
  · show (e : EReal) ≤ (if s.maxE < (e : EReal) then (e : EReal) else s.maxE)
    split_ifs with h
    · exact le_refl _
    · exact not_lt.mp h

lemma mmTracks_incorporate (v e : ℝ) (s : MMState) (h : MMTracks e s) :
    MMTracks e (incorporate v s) := by
  obtain ⟨_, h2, h3⟩ := h
  refine ⟨rfl, ?_, ?_⟩
  · show (if (v : EReal) < s.minE then (v : EReal) else s.minE) ≤ (e : EReal)
    split_ifs with h'
    · exact h'.le.trans h2
    · exact h2
  · show (e : EReal) ≤ (if s.maxE < (v : EReal) then (v : EReal) else s.maxE)
    split_ifs with h'
    · exact h3.trans h'.le
    · exact h3

lemma mmTracks_steppedBody (c : Ctx) (lon lat r : ℝ) (px py : ℤ) (e : ℝ) (s : MMState)
    (h : MMTracks e s) : MMTracks e (steppedBody c lon lat r px py s) := by
  rcases steppedBody_cases c lon lat r px py s with hc | ⟨v, hc⟩ <;> rw [hc]
  · exact h
  · exact mmTracks_incorporate v e s h

lemma mmTracks_probeBody (c : Ctx) (px py : ℤ) (e : ℝ) (s : MMState)
    (h : MMTracks e s) : MMTracks e (probeBody c px py s) := by
  rcases probeBody_cases c px py s with hc | ⟨v, hc⟩ <;> rw [hc]
  · exact h
  · exact mmTracks_incorporate v e s h

/-- The probe body at an in-bounds pixel holding a valid value incorporates
that value. -/
lemma probeBody_center (c : Ctx) (px py : ℤ) (e : ℝ) (s : MMState)
    (hx1 : 0 ≤ px) (hx2 : px < (c.width : ℤ)) (hy1 : 0 ≤ py) (hy2 : py < (c.height : ℤ))
    (hget : c.elevationData[(py * (c.width : ℤ) + px).toNat]? = some e)
    (hnd : c.noDataValue ≠ some e) :
    probeBody c px py s = incorporate e s := by
  have hlen : (py * (c.width : ℤ) + px).toNat < c.elevationData.length :=
    (List.getElem?_eq_some.mp hget).1
  unfold probeBody
  rw [if_neg (by push_neg; exact ⟨hx1, hx2, hy1, hy2⟩)]
  rw [if_neg (by
    push_neg
    constructor
    · positivity
    · have h0 : 0 ≤ py * (c.width : ℤ) + px := by positivity
      omega)]
  rw [hget]
  dsimp only
  rw [if_neg hnd]

/-- Inversion of a successful sampleElevation call whose resolved pixel is
already inside the raster bounds: the raw raster read yields exactly the
returned elevation and it is not the no-data sentinel. -/
lemma sampleElevation_inv (c : Ctx) (lon lat e : ℝ) (px py : ℤ)
    (h : sampleElevation c lon lat = some e) (hg : geoToPixel c lon lat = some (px, py))
    (hx1 : 0 ≤ px) (hx2 : px < (c.width : ℤ)) (hy1 : 0 ≤ py) (hy2 : py < (c.height : ℤ)) :
    c.elevationData[(py * (c.width : ℤ) + px).toNat]? = some e ∧
    c.noDataValue ≠ some e := by
  unfold sampleElevation at h
  rw [hg] at h
  dsimp only at h
  have hcx : max 0 (min ((c.width : ℤ) - 1) px) = px := by omega
  have hcy : max 0 (min ((c.height : ℤ) - 1) py) = py := by omega
  rw [hcx, hcy] at h
  rcases hr : c.elevationData[(py * (c.width : ℤ) + px).toNat]? with _ | v
  · rw [hr] at h
    exact absurd h (by simp)
  · rw [hr] at h
    dsimp only at h
    by_cases hnd : c.noDataValue = some v
    · rw [if_pos hnd] at h
      exact absurd h (by simp)
    · rw [if_neg hnd] at h
      have hev : v = e := by
        simpa using h
      subst hev
      exact ⟨by simp, hnd⟩

/-- C2 (amended): if the exact query point has a valid elevation, its
unclamped pixel lies inside the raster bounds, and the radius-window corner
pixels resolve, then getMinMaxElevationInRadius returns a non-null pair
bracketing the sampled elevation: the fixed neighbor probe visits the
center pixel itself. -/
theorem C2_center_in_minmax_amended (c : Ctx) (lon lat r e : ℝ) (px py : ℤ)
    (mp Mp : ℤ × ℤ)
    (hsample : sampleElevation c lon lat = some e)
    (hcenter : geoToPixel c lon lat = some (px, py))
    (hx1 : 0 ≤ px) (hx2 : px < (c.width : ℤ))
    (hy1 : 0 ≤ py) (hy2 : py < (c.height : ℤ))
    (hc1 : (mmCorners c lon lat r).1 = some mp)
    (hc2 : (mmCorners c lon lat r).2 = some Mp) :
    ∃ m M : ℝ, getMinMaxElevationInRadius c lon lat r = (some m, some M) ∧
      m ≤ e ∧ e ≤ M := by
  obtain ⟨hget, hnd⟩ := sampleElevation_inv c lon lat e px py hsample hcenter hx1 hx2 hy1 hy2
  have hmm : getMinMaxElevationInRadius c lon lat r =
      mmFinish (mmCore c lon lat r mp Mp (px, py)) := by
    unfold getMinMaxElevationInRadius
    rcases hmc : mmCorners c lon lat r with ⟨a1, a2⟩
    rw [hmc] at hc1 hc2
    dsimp only at hc1 hc2
    subst hc1
    subst hc2
    rw [hcenter]
  have hmem : (0 : ℤ) ∈ iterIdxs (-2) 2 1 := by decide
  have htr : MMTracks e (mmCore c lon lat r mp Mp (px, py)) := by
    unfold mmCore runProbe
    refine foldl_reach _ (MMTracks e) 0 ?_ ?_ _ _ hmem
    · intro s
      refine foldl_reach _ (MMTracks e) 0 ?_ ?_ _ _ hmem
      · intro s'
        have hpb : probeBody c (px + 0) (py + 0) s' = incorporate e s' := by
          rw [add_zero, add_zero]
          exact probeBody_center c px py e s' hx1 hx2 hy1 hy2 hget hnd
        dsimp only
        rw [hpb]
        exact mmTracks_incorporate_self e s'
      · intro s' b hs'
        exact mmTracks_probeBody c (px + b) (py + 0) e s' hs'
    · intro s dyv hs
      refine foldl_preserve _ (MMTracks e) ?_ _ _ hs
      intro s' dxv hs'
      exact mmTracks_probeBody c (px + dxv) (py + dyv) e s' hs'
  obtain ⟨a, b, hmin, hmax, _⟩ :=
    (mmGood_mmCore c lon lat r mp Mp (px, py)).2 htr.1
  refine ⟨a, b, ?_, ?_, ?_⟩
  · rw [hmm]
    unfold mmFinish
    rw [if_pos htr.1, hmin, hmax]
    simp
  · have := htr.2.1
    rw [hmin] at this
    exact_mod_cast this
  · have := htr.2.2
    rw [hmax] at this
    exact_mod_cast this

/-- geoToPixel on a non-projected raster without model transform tags takes
the bounding-box fallback branch. -/
lemma geoToPixel_fallback (c : Ctx) (lon lat : ℝ)
    (hnp : ¬ c.isProjected) (hmps : c.modelPixelScale = none) :
    geoToPixel c lon lat =
      some (round ((lon - c.minX) / (c.maxX - c.minX) * (c.width : ℝ)),
            round ((c.maxY - lat) / (c.maxY - c.minY) * (c.height : ℝ))) := by
  have hcond : ¬ (c.isProjected ∧ c.sourceProj.isSome) := fun h => hnp h.1
  simp only [geoToPixel, hmps, if_neg hcond]

/-- Config A: a one-pixel geographic raster whose only value is the no-data
sentinel. -/
def ctxA : Ctx where
  width := 1
  height := 1
  minX := 0
  minY := 0
  maxX := 1
  maxY := 1
  elevationData := [-9999]
  noDataValue := some (-9999)
  modelPixelScale := none
  modelTiepoint := none
  sourceProj := none
  toNative := fun _ _ => none
  toWGS := fun _ _ => none

lemma ctxA_not_projected : ¬ ctxA.isProjected := by
  norm_num [Ctx.isProjected, ctxA]

lemma geoToPixel_ctxA : geoToPixel ctxA 0 0 = some (0, 1) := by
  rw [geoToPixel_fallback ctxA 0 0 ctxA_not_projected rfl]
  norm_num [ctxA]

lemma sampleElevation_ctxA : sampleElevation ctxA 0 0 = none := by
  unfold sampleElevation
  rw [geoToPixel_ctxA]
  norm_num [ctxA, List.get?]

/-- All reads from the Config A raster are the no-data sentinel or out of
range. -/
lemma ctxA_reads (i : ℕ) :
    ctxA.elevationData[i]? = some (-9999) ∨ ctxA.elevationData[i]? = none := by
  rcases i with _ | i
  · left
    rfl
  · right
    rfl

/-- A stepped-grid body over a raster whose reads are all no-data or out of
range never changes the accumulator. -/
lemma steppedBody_noData (c : Ctx) (lon lat r : ℝ) (px py : ℤ) (s : MMState) (nd : ℝ)
    (hnd : c.noDataValue = some nd)
    (hval : ∀ i : ℕ, c.elevationData[i]? = some nd ∨ c.elevationData[i]? = none) :
    steppedBody c lon lat r px py s = s := by
  simp only [steppedBody]
  split
  · rfl
  · split
    · rfl
    · split
      · rfl
      · rcases hval (py * (c.width : ℤ) + px).toNat with hv | hv <;> simp [hv, hnd]

/-- A probe body over a raster whose reads are all no-data or out of range
never changes the accumulator. -/
lemma probeBody_noData (c : Ctx) (px py : ℤ) (s : MMState) (nd : ℝ)
    (hnd : c.noDataValue = some nd)
    (hval : ∀ i : ℕ, c.elevationData[i]? = some nd ∨ c.elevationData[i]? = none) :
    probeBody c px py s = s := by
  simp only [probeBody]
  split
  · rfl
  · split
    · rfl
    · rcases hval (py * (c.width : ℤ) + px).toNat with hv | hv <;> simp [hv, hnd]

/-- The stepped-grid double loop is the identity when its body is. -/
lemma runGrid_skip (c : Ctx) (lon lat r : ℝ) (ax bx ay cy step : ℤ) (s : MMState)
    (hbody : ∀ px py s', steppedBody c lon lat r px py s' = s') :
    runGrid c lon lat r ax bx ay cy step s = s := by
  unfold runGrid
  refine foldl_preserve _ (fun s' => s' = s) ?_ _ _ rfl
  intro s1 py hs1
  refine foldl_preserve _ (fun s' => s' = s) ?_ _ _ hs1
  intro s2 px hs2
  rw [hbody px py s2]
  exact hs2

/-- The probe double loop is the identity when its body is. -/
lemma runProbe_skip (c : Ctx) (cx cy : ℤ) (s : MMState)
    (hbody : ∀ px py s', probeBody c px py s' = s') :
    runProbe c cx cy s = s := by
  unfold runProbe
  refine foldl_preserve _ (fun s' => s' = s) ?_ _ _ rfl
  intro s1 dy hs1
  refine foldl_preserve _ (fun s' => s' = s) ?_ _ _ hs1
  intro s2 dx hs2
  rw [hbody (cx + dx) (cy + dy) s2]
  exact hs2

/-- On a non-projected raster without transform tags both radius-window
corner pixels always resolve. -/
lemma mmCorners_some (c : Ctx) (lon lat r : ℝ)
    (hnp : ¬ c.isProjected) (hmps : c.modelPixelScale = none) :
    ∃ p1 p2 : ℤ × ℤ, mmCorners c lon lat r = (some p1, some p2) := by
  simp only [mmCorners]
  rw [geoToPixel_fallback c _ _ hnp hmps, geoToPixel_fallback c _ _ hnp hmps]
  exact ⟨_, _, rfl⟩

lemma getMinMax_ctxA : getMinMaxElevationInRadius ctxA 0 0 50 = (none, none) := by
  have hstep : ∀ px py s', steppedBody ctxA 0 0 50 px py s' = s' := fun px py s' =>
    steppedBody_noData ctxA 0 0 50 px py s' (-9999) rfl ctxA_reads
  have hprobe : ∀ px py s', probeBody ctxA px py s' = s' := fun px py s' =>
    probeBody_noData ctxA px py s' (-9999) rfl ctxA_reads
  obtain ⟨p1, p2, hmc⟩ := mmCorners_some ctxA 0 0 50 ctxA_not_projected rfl
  unfold getMinMaxElevationInRadius
  rw [hmc]
  dsimp only
  rw [geoToPixel_ctxA]
  dsimp only
  have hcore : mmCore ctxA 0 0 50 p1 p2 (0, 1) = mmInit := by
    simp only [mmCore]
    rw [runGrid_skip _ _ _ _ _ _ _ _ _ _ hstep, runProbe_skip _ _ _ _ hprobe]
  rw [hcore]
  rfl

lemma numPointsFor_self (p : ℝ × ℝ) (i : ℝ) : numPointsFor p p i = 2 := by
  unfold numPointsFor
  rw [calculateDistance_self]
  norm_num

lemma interpolateSegment_self (p : ℝ × ℝ) (i : ℝ) :
    interpolateSegment p p i = [p, p] := by
  simp only [interpolateSegment, numPointsFor_self]
  norm_num [List.range_succ]

lemma densify_pair_self (p : ℝ × ℝ) (i : ℝ) : densify [p, p] i = [p, p] := by
  simp only [densify, List.zip, List.zipWith, List.flatMap, List.map, List.flatten]
  rw [interpolateSegment_self]
  simp

lemma buildA :
    buildProfileSamples ctxA 50 [((0 : ℝ), (0 : ℝ)), (0, 0)] =
      [⟨0, 0, 0, 0, none, none⟩, ⟨0, 0, 0, 0, none, none⟩] := by
  simp only [buildProfileSamples, buildLoop, mkSample]
  rw [calculateDistance_self]
  norm_num [sampleElevation_ctxA, getMinMax_ctxA]

/-- Config A uploads directory: one known DTM file. -/
def filesA : List Char → Option Ctx := fun n =>
  if n = "a.tif".toList then some ctxA else none

lemma handlerA :
    elevationProfile (some [((0 : ℝ), (0 : ℝ)), (0, 0)]) (some "a.tif".toList) filesA none =
      .ok [⟨0, 0, 0, 0, none, none⟩, ⟨0, 0, 0, 0, none, none⟩] := by
  have hsplit : (splitOnSlash "a.tif".toList).getLastD [] = "a.tif".toList := by decide
  simp only [elevationProfile, hsplit, samplingInterval, jsOrDefault, filesA]
  rw [if_neg (by decide), if_neg (by decide), if_neg (by decide)]
  simp only [if_true]
  rw [densify_pair_self, buildA]

/-- The min/max fields of one emitted record are exactly the radius
statistics when both are non-null, and undefined (none) otherwise
(server.js lines 767-775 and 786-787) — independently of the elevation
sample. -/
lemma mkSample_minmax_pair (c : Ctx) (radius : ℝ) (p : ℝ × ℝ) (cum : ℝ) :
    ((mkSample c radius p cum).minElevation, (mkSample c radius p cum).maxElevation) =
      (match getMinMaxElevationInRadius c p.1 p.2 radius with
       | (some m, some M) => (some m, some M)
       | _ => ((none : Option ℝ), (none : Option ℝ))) := by
  rcases hr : getMinMaxElevationInRadius c p.1 p.2 radius with ⟨m?, M?⟩
  rcases m? with _ | m <;> rcases M? with _ | M <;> simp [mkSample, hr]

/-- Per-sample map laws of the tail sampling loop: longitude/latitude are
the input points in order, the elevation field is the sampled value with
null replaced by 0, and the min/max fields follow the radius statistics. -/
lemma buildLoop_map (c : Ctx) (radius : ℝ) :
    ∀ (pts : List (ℝ × ℝ)) (prev : ℝ × ℝ) (cum : ℝ),
      ((buildLoop c radius pts prev cum).map fun s => (s.longitude, s.latitude)) = pts ∧
      ((buildLoop c radius pts prev cum).map fun s => s.elevation) =
        pts.map (fun q => (sampleElevation c q.1 q.2).getD 0) ∧
      ((buildLoop c radius pts prev cum).map fun s => (s.minElevation, s.maxElevation)) =
        pts.map (fun q =>
          match getMinMaxElevationInRadius c q.1 q.2 radius with
          | (some m, some M) => (some m, some M)
          | _ => ((none : Option ℝ), (none : Option ℝ)))
  | [], _, _ => ⟨rfl, rfl, rfl⟩
  | p :: rest, prev, cum => by
    obtain ⟨h1, h2, h3⟩ := buildLoop_map c radius rest p (cum + calculateDistance prev p)
    refine ⟨?_, ?_, ?_⟩
    · simp [buildLoop, mkSample, h1]
    · simp [buildLoop, mkSample, h2]
    · simp only [buildLoop, List.map_cons, h3, mkSample_minmax_pair]

/-- Per-sample map laws of the full sampling loop. -/
lemma buildProfileSamples_map (c : Ctx) (radius : ℝ) (pts : List (ℝ × ℝ)) :
    ((buildProfileSamples c radius pts).map fun s => (s.longitude, s.latitude)) = pts ∧
    ((buildProfileSamples c radius pts).map fun s => s.elevation) =
      pts.map (fun q => (sampleElevation c q.1 q.2).getD 0) ∧
    ((buildProfileSamples c radius pts).map fun s => (s.minElevation, s.maxElevation)) =
      pts.map (fun q =>
        match getMinMaxElevationInRadius c q.1 q.2 radius with
        | (some m, some M) => (some m, some M)
        | _ => ((none : Option ℝ), (none : Option ℝ))) := by
  cases pts with
  | nil => exact ⟨rfl, rfl, rfl⟩
  | cons p0 rest =>
    obtain ⟨h1, h2, h3⟩ := buildLoop_map c radius rest p0 0
    refine ⟨?_, ?_, ?_⟩
    · simp [buildProfileSamples, mkSample, h1]
    · simp [buildProfileSamples, mkSample, h2]
    · simp only [buildProfileSamples, List.map_cons, h3, mkSample_minmax_pair]

/-- The handler succeeds for any valid request and returns exactly the
profile built from the densified path. -/
lemma elevationProfile_ok (coords : List (ℝ × ℝ)) (dtmPath : List Char)
    (files : List Char → Option Ctx) (radiusMeters : Option ℝ) (c : Ctx)
    (h2 : 2 ≤ coords.length) (hpath : dtmPath ≠ [])
    (hfn : (splitOnSlash dtmPath).getLastD [] ≠ [])
    (hfile : files ((splitOnSlash dtmPath).getLastD []) = some c) :
    elevationProfile (some coords) (some dtmPath) files radiusMeters =
      .ok (buildProfileSamples c (jsOrDefault radiusMeters 50)
        (densify coords samplingInterval)) := by
  simp only [elevationProfile]
  rw [if_neg (not_lt.mpr h2), if_neg hpath, if_neg hfn, hfile]

/-- C1 is refuted as stated: at a point whose elevation sampling fails
(the raster value is the no-data sentinel), the emitted profile record
carries elevation 0, not null; the profile field is numeric and the failed
sample is replaced by 0 (server.js line 783). -/
theorem C1_null_elevation_counterexample :
    sampleElevation ctxA 0 0 = none ∧
    elevationProfile (some [((0 : ℝ), (0 : ℝ)), (0, 0)]) (some "a.tif".toList) filesA none =
      .ok [⟨0, 0, 0, 0, none, none⟩, ⟨0, 0, 0, 0, none, none⟩] :=
  ⟨sampleElevation_ctxA, handlerA⟩

/-- C1 (amended): a per-point sampling failure never aborts the build; the
emitted profile has exactly one record per densified point in order, the
elevation field is the sampled value with a failed (null) sample replaced
by 0, the min/max fields are set exactly when the radius statistics return
both values non-null and left undefined otherwise (independently of the
elevation sample), and a valid request always yields a full profile. -/
theorem C1_partial_failure_amended (c : Ctx) (radius : ℝ) (pts : List (ℝ × ℝ))
    (coords : List (ℝ × ℝ)) (dtmPath : List Char) (files : List Char → Option Ctx)
    (radiusMeters : Option ℝ)
    (h2 : 2 ≤ coords.length) (hpath : dtmPath ≠ [])
    (hfn : (splitOnSlash dtmPath).getLastD [] ≠ [])
    (hfile : files ((splitOnSlash dtmPath).getLastD []) = some c) :
    ((buildProfileSamples c radius pts).map fun s => (s.longitude, s.latitude)) = pts ∧
    ((buildProfileSamples c radius pts).map fun s => s.elevation) =
      pts.map (fun q => (sampleElevation c q.1 q.2).getD 0) ∧
    ((buildProfileSamples c radius pts).map fun s => (s.minElevation, s.maxElevation)) =
      pts.map (fun q =>
        match getMinMaxElevationInRadius c q.1 q.2 radius with
        | (some m, some M) => (some m, some M)
        | _ => ((none : Option ℝ), (none : Option ℝ))) ∧
    elevationProfile (some coords) (some dtmPath) files radiusMeters =
      .ok (buildProfileSamples c (jsOrDefault radiusMeters 50)
        (densify coords samplingInterval)) := by
  obtain ⟨hm1, hm2, hm3⟩ := buildProfileSamples_map c radius pts
  exact ⟨hm1, hm2, hm3,
    elevationProfile_ok coords dtmPath files radiusMeters c h2 hpath hfn hfile⟩

/-- Witness for the amended C1 at a concrete raster and path. -/
theorem C1_partial_failure_amended_witness :
    2 ≤ ([((0 : ℝ), (0 : ℝ)), (0, 0)] : List (ℝ × ℝ)).length ∧
    "a.tif".toList ≠ ([] : List Char) ∧
    (splitOnSlash "a.tif".toList).getLastD [] ≠ ([] : List Char) ∧
    filesA ((splitOnSlash "a.tif".toList).getLastD []) = some ctxA ∧
    (((buildProfileSamples ctxA 50 [((0 : ℝ), (0 : ℝ)), (0, 0)]).map
        fun s => (s.longitude, s.latitude)) = [((0 : ℝ), (0 : ℝ)), (0, 0)] ∧
      ((buildProfileSamples ctxA 50 [((0 : ℝ), (0 : ℝ)), (0, 0)]).map
        fun s => s.elevation) =
        [((0 : ℝ), (0 : ℝ)), (0, 0)].map
          (fun q => (sampleElevation ctxA q.1 q.2).getD 0) ∧
      ((buildProfileSamples ctxA 50 [((0 : ℝ), (0 : ℝ)), (0, 0)]).map
        fun s => (s.minElevation, s.maxElevation)) =
        [((0 : ℝ), (0 : ℝ)), (0, 0)].map
          (fun q =>
            match getMinMaxElevationInRadius ctxA q.1 q.2 50 with
            | (some m, some M) => (some m, some M)
            | _ => ((none : Option ℝ), (none : Option ℝ))) ∧
      elevationProfile (some [((0 : ℝ), (0 : ℝ)), (0, 0)]) (some "a.tif".toList) filesA none =
        .ok (buildProfileSamples ctxA (jsOrDefault none 50)
          (densify [((0 : ℝ), (0 : ℝ)), (0, 0)] samplingInterval))) :=
  ⟨by decide, by decide, by decide, rfl,
    C1_partial_failure_amended ctxA 50 [((0 : ℝ), (0 : ℝ)), (0, 0)]
      [((0 : ℝ), (0 : ℝ)), (0, 0)] "a.tif".toList filesA none
      (by decide) (by decide) (by decide) rfl⟩

/-- C4: a request whose vertex list has fewer than 2 vertices (empty or a
single vertex) is rejected with the invalid-coordinates error for every
uploads directory, DTM path and radius — the rejection happens before any
raster access and no profile samples are produced. -/
theorem C4_short_path_rejected (coords : List (ℝ × ℝ)) (dtmPath : Option (List Char))
    (files : List Char → Option Ctx) (radiusMeters : Option ℝ)
    (h : coords.length < 2) :
    elevationProfile (some coords) dtmPath files radiusMeters =
      .error "Invalid coordinates array".toList := by
  simp only [elevationProfile]
  rw [if_pos h]

/-- Witness for C4 at a one-vertex path. -/
theorem C4_short_path_rejected_witness :
    ([((0 : ℝ), (0 : ℝ))] : List (ℝ × ℝ)).length < 2 ∧
    elevationProfile (some [((0 : ℝ), (0 : ℝ))]) (some "a.tif".toList) filesA none =
      .error "Invalid coordinates array".toList :=
  ⟨by decide,
    C4_short_path_rejected [((0 : ℝ), (0 : ℝ))] (some "a.tif".toList) filesA none (by decide)⟩

/-- Distances emitted by the tail sampling loop are bounded below by the
incoming cumulative distance and form a non-decreasing chain. -/
lemma buildLoop_distance_chain (c : Ctx) (radius : ℝ) :
    ∀ (pts : List (ℝ × ℝ)) (prev : ℝ × ℝ) (cum : ℝ),
      (∀ x ∈ buildLoop c radius pts prev cum, cum ≤ x.distance) ∧
      ((buildLoop c radius pts prev cum).map ProfileSample.distance).Chain' (· ≤ ·)
  | [], _, _ => ⟨by simp [buildLoop], by simp [buildLoop]⟩
  | p :: rest, prev, cum => by
    obtain ⟨ih1, ih2⟩ :=
      buildLoop_distance_chain c radius rest p (cum + calculateDistance prev p)
    have hd : 0 ≤ calculateDistance prev p := calculateDistance_nonneg prev p
    constructor
    · intro x hx
      simp only [buildLoop, List.mem_cons] at hx
      rcases hx with rfl | hx
      · simp only [mkSample]
        linarith
      · have := ih1 x hx
        linarith
    · simp only [buildLoop, List.map_cons]
      refine List.Chain'.cons' ih2 ?_
      intro y hy
      have hy' := List.mem_of_mem_head? hy
      obtain ⟨z, hz, hzy⟩ := List.mem_map.mp hy'
      have := ih1 z hz
      simp only [mkSample]
      rw [← hzy]
      linarith

/-- The whole profile's distances start at exactly 0 and form a
non-decreasing chain. -/
lemma buildProfileSamples_distance_chain (c : Ctx) (radius : ℝ) (pts : List (ℝ × ℝ)) :
    ((buildProfileSamples c radius pts).map ProfileSample.distance).Chain' (· ≤ ·) ∧
    (∀ p0 rest, pts = p0 :: rest →
      ∃ s0 srest, buildProfileSamples c radius pts = s0 :: srest ∧ s0.distance = 0) := by
  cases pts with
  | nil =>
    exact ⟨by simp [buildProfileSamples], fun p0 rest h => by simp at h⟩
  | cons p0 rest =>
    obtain ⟨ih1, ih2⟩ := buildLoop_distance_chain c radius rest p0 0
    constructor
    · simp only [buildProfileSamples, List.map_cons]
      refine List.Chain'.cons' ih2 ?_
      intro y hy
      have hy' := List.mem_of_mem_head? hy
      obtain ⟨z, hz, hzy⟩ := List.mem_map.mp hy'
      have := ih1 z hz
      simp only [mkSample]
      rw [← hzy]
      linarith
    · intro q0 qrest _
      exact ⟨mkSample c radius p0 0, buildLoop c radius rest p0 0, rfl, rfl⟩

/-- Successful handler results are exactly the profiles built from a
well-formed request. -/
lemma elevationProfile_ok_inv (copt : Option (List (ℝ × ℝ))) (dopt : Option (List Char))
    (files : List Char → Option Ctx) (rm : Option ℝ) (p : List ProfileSample)
    (h : elevationProfile copt dopt files rm = .ok p) :
    ∃ coords c, copt = some coords ∧ 2 ≤ coords.length ∧
      p = buildProfileSamples c (jsOrDefault rm 50) (densify coords samplingInterval) := by
  rcases copt with _ | coords
  · exact absurd h (by simp [elevationProfile])
  by_cases h2 : coords.length < 2
  · simp only [elevationProfile, if_pos h2] at h
    exact absurd h (by simp)
  rcases dopt with _ | path
  · simp only [elevationProfile] at h
    rw [if_neg h2] at h
    exact absurd h (by simp)
  by_cases hp : path = []
  · simp only [elevationProfile] at h
    rw [if_neg h2, if_pos hp] at h
    exact absurd h (by simp)
  by_cases hfn : (splitOnSlash path).getLastD [] = []
  · simp only [elevationProfile] at h
    rw [if_neg h2, if_neg hp] at h
    simp only [if_pos hfn] at h
    exact absurd h (by simp)
  rcases hf : files ((splitOnSlash path).getLastD []) with _ | c
  · simp only [elevationProfile] at h
    rw [if_neg h2, if_neg hp] at h
    simp only [if_neg hfn, hf] at h
    exact absurd h (by simp)
  · simp only [elevationProfile] at h
    rw [if_neg h2, if_neg hp] at h
    simp only [if_neg hfn, hf] at h
    refine ⟨coords, c, rfl, not_lt.mp h2, ?_⟩
    simpa using h.symm

/-- C5: for every profile the handler produces, the per-sample distance
values are monotonically non-decreasing in sample order and the first
sample's distance is exactly 0. -/
theorem C5_distances_monotone (copt : Option (List (ℝ × ℝ))) (dopt : Option (List Char))
    (files : List Char → Option Ctx) (rm : Option ℝ) (p : List ProfileSample)
    (hp : elevationProfile copt dopt files rm = .ok p) :
    (∃ s0 rest, p = s0 :: rest ∧ s0.distance = 0) ∧
    (p.map ProfileSample.distance).Pairwise (· ≤ ·) := by
  obtain ⟨coords, c, hc, h2, hbuild⟩ := elevationProfile_ok_inv copt dopt files rm p hp
  subst hbuild
  obtain ⟨hchain, hhead⟩ := buildProfileSamples_distance_chain c (jsOrDefault rm 50)
    (densify coords samplingInterval)
  constructor
  · rcases coords with _ | ⟨c0, crest⟩
    · simp at h2
    · exact hhead _ _ rfl
  · exact List.chain'_iff_pairwise.mp hchain

/-- Witness for C5 at a concrete successful request. -/
theorem C5_distances_monotone_witness :
    elevationProfile (some [((0 : ℝ), (0 : ℝ)), (0, 0)]) (some "a.tif".toList) filesA none =
      .ok [⟨0, 0, 0, 0, none, none⟩, ⟨0, 0, 0, 0, none, none⟩] ∧
    ((∃ s0 rest, ([⟨0, 0, 0, 0, none, none⟩, ⟨0, 0, 0, 0, none, none⟩] : List ProfileSample) =
        s0 :: rest ∧ s0.distance = 0) ∧
      (([⟨0, 0, 0, 0, none, none⟩, ⟨0, 0, 0, 0, none, none⟩] : List ProfileSample).map
        ProfileSample.distance).Pairwise (· ≤ ·)) :=
  ⟨handlerA, C5_distances_monotone _ _ _ _ _ handlerA⟩

/-- Spec-side reading of the projected-coordinates test: some bound exceeds
the geographic longitude/latitude ranges. -/
def isProjectedSpec (minX minY maxX maxY : ℝ) : Prop :=
  180 < |minX| ∨ 90 < |minY| ∨ 180 < |maxX| ∨ 90 < |maxY|

/-- C8: a raster is classified as projected exactly when one of its bounds
exceeds 180 degrees of longitude or 90 degrees of latitude in magnitude. -/
theorem C8_isProjected_iff (c : Ctx) :
    c.isProjected ↔ isProjectedSpec c.minX c.minY c.maxX c.maxY :=
  Iff.rfl

/-- C10: an absent/null radiusMeters and an explicit 0 both fall back to
the 50 meter default, and a request with radius 0 produces exactly the
same response as one with radius 50. -/
theorem C10_falsy_radius_defaults (copt : Option (List (ℝ × ℝ))) (dopt : Option (List Char))
    (files : List Char → Option Ctx) :
    jsOrDefault none 50 = 50 ∧ jsOrDefault (some 0) 50 = 50 ∧
    elevationProfile copt dopt files (some 0) = elevationProfile copt dopt files (some 50) := by
  have h0 : jsOrDefault (some (0 : ℝ)) 50 = 50 := by
    norm_num [jsOrDefault]
  have h50 : jsOrDefault (some (50 : ℝ)) 50 = 50 := by
    norm_num [jsOrDefault]
  refine ⟨rfl, h0, ?_⟩
  simp only [elevationProfile, h0, h50]

/-- C6: sampleElevation never errors: a reprojection failure yields null;
otherwise the resolved pixel is clamped into the valid range (out-of-extent
coordinates are clamped to the nearest valid pixel) and the clamped
row-major read decides the result, null exactly on the no-data sentinel
(the NaN/non-finite float artifacts, including JavaScript's undefined from
an out-of-range array read, are the none read of the model). -/
theorem C6_sample_clamped_read (c : Ctx) (lon lat : ℝ) (px py : ℤ)
    (hw : 0 < c.width) (hh : 0 < c.height) :
    (geoToPixel c lon lat = none → sampleElevation c lon lat = none) ∧
    (geoToPixel c lon lat = some (px, py) →
      0 ≤ max 0 (min ((c.width : ℤ) - 1) px) ∧
      max 0 (min ((c.width : ℤ) - 1) px) ≤ (c.width : ℤ) - 1 ∧
      0 ≤ max 0 (min ((c.height : ℤ) - 1) py) ∧
      max 0 (min ((c.height : ℤ) - 1) py) ≤ (c.height : ℤ) - 1 ∧
      sampleElevation c lon lat =
        (match c.elevationData[(max 0 (min ((c.height : ℤ) - 1) py) * (c.width : ℤ) +
            max 0 (min ((c.width : ℤ) - 1) px)).toNat]? with
         | none => none
         | some v => if c.noDataValue = some v then none else some v)) := by
  constructor
  · intro h
    unfold sampleElevation
    rw [h]
  · intro h
    have hw' : (1 : ℤ) ≤ (c.width : ℤ) := by exact_mod_cast hw
    have hh' : (1 : ℤ) ≤ (c.height : ℤ) := by exact_mod_cast hh
    refine ⟨by omega, by omega, by omega, by omega, ?_⟩
    unfold sampleElevation
    rw [h]

/-- Witness for C6 on the concrete Config A raster. -/
theorem C6_sample_clamped_read_witness :
    0 < ctxA.width ∧ 0 < ctxA.height ∧
    ((geoToPixel ctxA 0 0 = none → sampleElevation ctxA 0 0 = none) ∧
     (geoToPixel ctxA 0 0 = some (0, 1) →
       0 ≤ max 0 (min ((ctxA.width : ℤ) - 1) 0) ∧
       max 0 (min ((ctxA.width : ℤ) - 1) 0) ≤ (ctxA.width : ℤ) - 1 ∧
       0 ≤ max 0 (min ((ctxA.height : ℤ) - 1) 1) ∧
       max 0 (min ((ctxA.height : ℤ) - 1) 1) ≤ (ctxA.height : ℤ) - 1 ∧
       sampleElevation ctxA 0 0 =
         (match ctxA.elevationData[(max 0 (min ((ctxA.height : ℤ) - 1) 1) * (ctxA.width : ℤ) +
             max 0 (min ((ctxA.width : ℤ) - 1) 0)).toNat]? with
          | none => none
          | some v => if ctxA.noDataValue = some v then none else some v))) :=
  ⟨by decide, by decide, C6_sample_clamped_read ctxA 0 0 0 1 (by decide) (by decide)⟩

lemma numPointsFor_ge_two (s e : ℝ × ℝ) (i : ℝ) : 2 ≤ numPointsFor s e i :=
  le_max_left _ _

lemma interpolateSegment_length (s e : ℝ × ℝ) (i : ℝ) :
    (interpolateSegment s e i).length = numPointsFor s e i := by
  simp [interpolateSegment]

lemma getLast?_cons_of_ne_nil {α : Type*} (a : α) (l : List α) (h : l ≠ []) :
    (a :: l).getLast? = l.getLast? := by
  cases l with
  | nil => exact absurd rfl h
  | cons b t => simp [List.getLast?_cons_cons]

lemma getLast?_append_right {α : Type*} (l1 l2 : List α) (h : l2 ≠ []) :
    (l1 ++ l2).getLast? = l2.getLast? := by
  rw [List.getLast?_append]
  cases hl : l2.getLast? with
  | none =>
    rw [List.getLast?_eq_none_iff] at hl
    exact absurd hl h
  | some a => rfl

/-- The last interpolated point of a segment is exactly its end vertex
(the parameter t reaches exactly 1). -/
lemma interpolateSegment_getLast? (s e : ℝ × ℝ) (i : ℝ) :
    (interpolateSegment s e i).getLast? = some e := by
  have h2 : 2 ≤ numPointsFor s e i := numPointsFor_ge_two s e i
  obtain ⟨m, hm⟩ : ∃ m, numPointsFor s e i = m + 1 := ⟨numPointsFor s e i - 1, by omega⟩
  have hm1 : 1 ≤ m := by omega
  simp only [interpolateSegment, hm]
  rw [List.range_succ, List.map_append]
  simp only [List.map_cons, List.map_nil]
  rw [List.getLast?_concat]
  have hcast : ((m + 1 : ℕ) : ℝ) - 1 = (m : ℝ) := by
    push_cast
    ring
  have hm0 : (m : ℝ) ≠ 0 := by
    have : (0 : ℝ) < (m : ℝ) := by exact_mod_cast hm1
    linarith
  simp only [hcast, div_self hm0]
  have he : (s.1 + (e.1 - s.1) * 1, s.2 + (e.2 - s.2) * 1) = e := by
    rw [Prod.ext_iff]
    constructor <;> simp
  rw [he]

lemma drop_one_interpolateSegment_ne_nil (s e : ℝ × ℝ) (i : ℝ) :
    (interpolateSegment s e i).drop 1 ≠ [] := by
  intro h
  have hlen : ((interpolateSegment s e i).drop 1).length = 0 := by
    rw [h]
    rfl
  rw [List.length_drop, interpolateSegment_length] at hlen
  have := numPointsFor_ge_two s e i
  omega

lemma drop_one_interpolateSegment_getLast? (s e : ℝ × ℝ) (i : ℝ) :
    ((interpolateSegment s e i).drop 1).getLast? = some e := by
  cases hl : interpolateSegment s e i with
  | nil =>
    have hlen := interpolateSegment_length s e i
    rw [hl] at hlen
    have h2 := numPointsFor_ge_two s e i
    simp at hlen
    omega
  | cons a t =>
    have ht : t ≠ [] := by
      intro h
      have hlen := interpolateSegment_length s e i
      rw [hl, h] at hlen
      have := numPointsFor_ge_two s e i
      simp at hlen
      omega
    have hlast := interpolateSegment_getLast? s e i
    rw [hl, getLast?_cons_of_ne_nil a t ht] at hlast
    simpa using hlast

/-- Unfolding of the allPoints assembly for a path with at least one
segment. -/
lemma densify_cons_cons (c0 c1 : ℝ × ℝ) (rest : List (ℝ × ℝ)) (i : ℝ) :
    densify (c0 :: c1 :: rest) i =
      c0 :: ((interpolateSegment c0 c1 i).drop 1 ++
        ((List.zip (c1 :: rest) rest).flatMap
          (fun se => (interpolateSegment se.1 se.2 i).drop 1))) := by
  simp [densify, List.zip_cons_cons]

/-- The last densified point is the path's last vertex. -/
lemma densify_getLast? : ∀ (rest : List (ℝ × ℝ)) (c0 c1 : ℝ × ℝ) (i : ℝ),
    (densify (c0 :: c1 :: rest) i).getLast? = (c1 :: rest).getLast?
  | [], c0, c1, i => by
    rw [densify_cons_cons]
    simp only [List.zip_nil_right, List.flatMap_nil, List.append_nil]
    rw [getLast?_cons_of_ne_nil _ _ (drop_one_interpolateSegment_ne_nil c0 c1 i)]
    rw [drop_one_interpolateSegment_getLast?]
    rfl
  | c2 :: rest', c0, c1, i => by
    have ih := densify_getLast? rest' c1 c2 i
    have hD01 := drop_one_interpolateSegment_ne_nil c0 c1 i
    have hD12 := drop_one_interpolateSegment_ne_nil c1 c2 i
    have hT12 : (interpolateSegment c1 c2 i).drop 1 ++
        ((List.zip (c2 :: rest') rest').flatMap
          (fun se => (interpolateSegment se.1 se.2 i).drop 1)) ≠ [] := by
      intro h
      exact hD12 (List.append_eq_nil.mp h).1
    rw [densify_cons_cons, List.zip_cons_cons, List.flatMap_cons]
    have happ : (interpolateSegment c0 c1 i).drop 1 ++
        ((interpolateSegment c1 c2 i).drop 1 ++
          ((List.zip (c2 :: rest') rest').flatMap
            (fun se => (interpolateSegment se.1 se.2 i).drop 1))) ≠ [] := by
      intro h
      exact hD01 (List.append_eq_nil.mp h).1
    rw [getLast?_cons_of_ne_nil _ _ happ]
    rw [getLast?_append_right _ _ hT12]
    rw [densify_cons_cons] at ih
    rw [getLast?_cons_of_ne_nil _ _ hT12] at ih
    rw [ih]
    rw [List.getLast?_cons_cons]

lemma sum_ge_length (l : List ℕ) (h : ∀ x ∈ l, 1 ≤ x) : l.length ≤ l.sum := by
  induction l with
  | nil => simp
  | cons a t ih =>
    simp only [List.length_cons, List.sum_cons]
    have h1 := h a (by simp)
    have h2 := ih (fun x hx => h x (by simp [hx]))
    omega

/-- Each consecutive vertex pair contributes its segment's point count
minus the dropped join point. -/
lemma densify_length (c0 : ℝ × ℝ) (rest : List (ℝ × ℝ)) (i : ℝ) :
    (densify (c0 :: rest) i).length =
      1 + (((c0 :: rest).zip rest).map
        (fun se => numPointsFor se.1 se.2 i - 1)).sum := by
  simp only [densify, List.length_cons, List.length_flatMap]
  have hmap : ((c0 :: rest).zip rest).map
      (List.length ∘ fun se => (interpolateSegment se.1 se.2 i).drop 1) =
      ((c0 :: rest).zip rest).map (fun se => numPointsFor se.1 se.2 i - 1) := by
    apply List.map_congr_left
    intro se _
    simp only [Function.comp_apply]
    rw [List.length_drop, interpolateSegment_length]
  rw [hmap]
  omega

/-- C7: for at least 2 vertices and a positive interval, densify returns at
least as many points as vertices; its length is 1 plus, per consecutive
vertex pair, the segment's max(2, ceil(distance/interval)) points minus the
dropped duplicate join point; and its first and last points are exactly the
input path's first and last vertices. -/
theorem C7_densify_shape (coords : List (ℝ × ℝ)) (interval : ℝ)
    (hlen : 2 ≤ coords.length) (hpos : 0 < interval) :
    coords.length ≤ (densify coords interval).length ∧
    (densify coords interval).length =
      1 + ((coords.zip coords.tail).map
        (fun se => numPointsFor se.1 se.2 interval - 1)).sum ∧
    (densify coords interval).head? = coords.head? ∧
    (densify coords interval).getLast? = coords.getLast? := by
  rcases coords with _ | ⟨c0, rest⟩
  · simp at hlen
  rcases rest with _ | ⟨c1, rest'⟩
  · simp at hlen
  refine ⟨?_, densify_length c0 (c1 :: rest') interval, rfl, ?_⟩
  · rw [densify_length]
    have hone : ∀ x ∈ ((c0 :: c1 :: rest').zip (c1 :: rest')).map
        (fun se => numPointsFor se.1 se.2 interval - 1), 1 ≤ x := by
      intro x hx
      obtain ⟨se, _, hxe⟩ := List.mem_map.mp hx
      have := numPointsFor_ge_two se.1 se.2 interval
      omega
    have hsum := sum_ge_length _ hone
    have hlen2 : (((c0 :: c1 :: rest').zip (c1 :: rest')).map
        (fun se => numPointsFor se.1 se.2 interval - 1)).length = (c1 :: rest').length := by
      rw [List.length_map, List.length_zip]
      simp
    rw [hlen2] at hsum
    simp only [List.length_cons] at hsum ⊢
    omega
  · rw [densify_getLast? rest' c0 c1 interval, List.getLast?_cons_cons]

/-- Witness for C7 on a concrete two-vertex path. -/
theorem C7_densify_shape_witness :
    2 ≤ ([((0 : ℝ), (0 : ℝ)), (0, 0)] : List (ℝ × ℝ)).length ∧ (0 : ℝ) < 5 ∧
    (([((0 : ℝ), (0 : ℝ)), (0, 0)] : List (ℝ × ℝ)).length ≤
        (densify [((0 : ℝ), (0 : ℝ)), (0, 0)] 5).length ∧
      (densify [((0 : ℝ), (0 : ℝ)), (0, 0)] 5).length =
        1 + ((([((0 : ℝ), (0 : ℝ)), (0, 0)] : List (ℝ × ℝ)).zip
          ([((0 : ℝ), (0 : ℝ)), (0, 0)] : List (ℝ × ℝ)).tail).map
            (fun se => numPointsFor se.1 se.2 5 - 1)).sum ∧
      (densify [((0 : ℝ), (0 : ℝ)), (0, 0)] 5).head? =
        ([((0 : ℝ), (0 : ℝ)), (0, 0)] : List (ℝ × ℝ)).head? ∧
      (densify [((0 : ℝ), (0 : ℝ)), (0, 0)] 5).getLast? =
        ([((0 : ℝ), (0 : ℝ)), (0, 0)] : List (ℝ × ℝ)).getLast?) :=
  ⟨by decide, by norm_num,
    C7_densify_shape [((0 : ℝ), (0 : ℝ)), (0, 0)] 5 (by decide) (by norm_num)⟩

/-- C3 (amended): the stepped-grid loop discards beyond-radius pixels: a
grid pixel whose recovered geographic coordinate lies farther than
radiusMeters from the query point never changes the running min/max.  (The
fixed neighbor probe performs no such distance check; see the
counterexample.) -/
theorem C3_grid_discards_far_pixels_amended (c : Ctx) (lon lat r : ℝ) (px py : ℤ)
    (glon glat : ℝ) (s : MMState)
    (hg : steppedSampleGeo c px py = some (glon, glat))
    (hd : calculateDistance (lon, lat) (glon, glat) > r) :
    steppedBody c lon lat r px py s = s := by
  unfold steppedBody
  rw [hg]
  dsimp only
  rw [if_pos hd]

/-- Haversine distance between two equal-latitude-0 points as a closed
expression of the longitude difference. -/
lemma calculateDistance_lat0 (x y : ℝ) :
    calculateDistance (x, 0) (y, 0) =
      6371000 * (2 * atan2
        (Real.sqrt (Real.sin ((y - x) * Real.pi / 180 / 2) *
          Real.sin ((y - x) * Real.pi / 180 / 2)))
        (Real.sqrt (1 - Real.sin ((y - x) * Real.pi / 180 / 2) *
          Real.sin ((y - x) * Real.pi / 180 / 2)))) := by
  simp only [calculateDistance]
  norm_num [Real.sin_zero, Real.cos_zero]

/-- The pixel two degrees of longitude west of the equatorial query point
is far more than 50 meters away. -/
lemma calculateDistance_two_deg_far : calculateDistance ((0 : ℝ), 0) (-2, 0) > 50 := by
  have hpi := Real.pi_gt_three
  have hpile : Real.pi ≤ 4 := Real.pi_le_four
  have hθpos : (0 : ℝ) < Real.pi / 180 := by linarith
  have hθlt : Real.pi / 180 < Real.pi / 2 := by linarith
  have hsin_nonneg : 0 ≤ Real.sin (Real.pi / 180) :=
    Real.sin_nonneg_of_nonneg_of_le_pi (by linarith) (by linarith)
  have hcos_pos : 0 < Real.cos (Real.pi / 180) :=
    Real.cos_pos_of_mem_Ioo ⟨by linarith, hθlt⟩
  rw [calculateDistance_lat0]
  have harg : ((-2 : ℝ) - 0) * Real.pi / 180 / 2 = -(Real.pi / 180) := by ring
  rw [harg, Real.sin_neg]
  have hsq : -Real.sin (Real.pi / 180) * -Real.sin (Real.pi / 180) =
      Real.sin (Real.pi / 180) ^ 2 := by ring
  rw [hsq]
  have h1 : Real.sqrt (Real.sin (Real.pi / 180) ^ 2) = Real.sin (Real.pi / 180) :=
    Real.sqrt_sq hsin_nonneg
  have hcossq : 1 - Real.sin (Real.pi / 180) ^ 2 = Real.cos (Real.pi / 180) ^ 2 := by
    have := Real.sin_sq_add_cos_sq (Real.pi / 180)
    linarith
  rw [h1, hcossq, Real.sqrt_sq hcos_pos.le]
  have hatan : atan2 (Real.sin (Real.pi / 180)) (Real.cos (Real.pi / 180)) =
      Real.pi / 180 := by
    unfold atan2
    rw [if_pos hcos_pos, ← Real.tan_eq_sin_div_cos]
    exact Real.arctan_tan (by linarith) (by linarith)
  rw [hatan]
  linarith

/-- Config B: a 4-by-4 one-degree-pixel raster around the origin, all
elevations 100. -/
def ctxB : Ctx where
  width := 4
  height := 4
  minX := -2
  minY := -2
  maxX := 2
  maxY := 2
  elevationData := [100, 100, 100, 100, 100, 100, 100, 100,
                    100, 100, 100, 100, 100, 100, 100, 100]
  noDataValue := none
  modelPixelScale := none
  modelTiepoint := none
  sourceProj := none
  toNative := fun _ _ => none
  toWGS := fun _ _ => none

/-- Config C: the same raster as Config B except that pixel (0, 2) —
geographically two degrees west of the query point, far beyond a 50 meter
radius — holds elevation 5. -/
def ctxC : Ctx where
  width := 4
  height := 4
  minX := -2
  minY := -2
  maxX := 2
  maxY := 2
  elevationData := [100, 100, 100, 100, 100, 100, 100, 100,
                    5, 100, 100, 100, 100, 100, 100, 100]
  noDataValue := none
  modelPixelScale := none
  modelTiepoint := none
  sourceProj := none
  toNative := fun _ _ => none
  toWGS := fun _ _ => none

lemma ctxB_not_projected : ¬ ctxB.isProjected := by
  norm_num [Ctx.isProjected, ctxB]

lemma ctxC_not_projected : ¬ ctxC.isProjected := by
  norm_num [Ctx.isProjected, ctxC]

lemma geoToPixel_ctxB_center : geoToPixel ctxB 0 0 = some (2, 2) := by
  rw [geoToPixel_fallback ctxB 0 0 ctxB_not_projected rfl]
  norm_num [ctxB, round_eq]

lemma geoToPixel_ctxC_center : geoToPixel ctxC 0 0 = some (2, 2) := by
  rw [geoToPixel_fallback ctxC 0 0 ctxC_not_projected rfl]
  norm_num [ctxC, round_eq]

lemma sampleElevation_ctxB : sampleElevation ctxB 0 0 = some 100 := by
  unfold sampleElevation
  rw [geoToPixel_ctxB_center]
  norm_num [ctxB]
  exact ⟨by simp, rfl⟩

lemma steppedSampleGeo_ctxC_far : steppedSampleGeo ctxC 0 2 = some (-2, 0) := by
  unfold steppedSampleGeo
  norm_num [ctxC]

lemma steppedSampleGeo_ctxC_center : steppedSampleGeo ctxC 2 2 = some (0, 0) := by
  unfold steppedSampleGeo
  norm_num [ctxC]

lemma runGrid_ctxC : runGrid ctxC 0 0 50 2 2 2 2 1 mmInit = ⟨(100 : ℝ), (100 : ℝ), true⟩ := by
  unfold runGrid
  have hl : iterIdxs 2 2 1 = [2] := by decide
  rw [hl]
  simp only [List.foldl_cons, List.foldl_nil]
  unfold steppedBody
  rw [steppedSampleGeo_ctxC_center]
  dsimp only
  rw [if_neg (by rw [calculateDistance_self]; norm_num)]
  simp [ctxC, incorporate, mmInit, EReal.coe_lt_coe_iff]

lemma runProbe_ctxC :
    runProbe ctxC 2 2 ⟨(100 : ℝ), (100 : ℝ), true⟩ = ⟨(5 : ℝ), (100 : ℝ), true⟩ := by
  unfold runProbe
  have hl : iterIdxs (-2) 2 1 = [-2, -1, 0, 1, 2] := by decide
  rw [hl]
  simp only [List.foldl_cons, List.foldl_nil]
  simp [probeBody, incorporate, ctxC, EReal.coe_lt_coe_iff]
  norm_num

lemma mmCorners_ctxC : mmCorners ctxC 0 0 50 = (some (2, 2), some (2, 2)) := by
  simp only [mmCorners]
  rw [geoToPixel_fallback ctxC _ _ ctxC_not_projected rfl,
      geoToPixel_fallback ctxC _ _ ctxC_not_projected rfl]
  norm_num [ctxC, round_eq, Real.cos_zero]

lemma mmStepSize_degenerate (c : Ctx) (lat r : ℝ) (a b : ℤ) :
    mmStepSize c lat r a a b b = 1 := by
  unfold mmStepSize
  norm_num

lemma mmFinish_two (m M : ℝ) :
    mmFinish ⟨(m : ℝ), (M : ℝ), true⟩ = (some m, some M) := by
  unfold mmFinish
  norm_num

lemma getMinMax_ctxC : getMinMaxElevationInRadius ctxC 0 0 50 = (some 5, some 100) := by
  unfold getMinMaxElevationInRadius
  rw [mmCorners_ctxC]
  dsimp only
  rw [geoToPixel_ctxC_center]
  dsimp only
  have hw : (ctxC.width : ℤ) = 4 := rfl
  have hh : (ctxC.height : ℤ) = 4 := rfl
  have hclampW : max 0 (min ((ctxC.width : ℤ) - 1) 2) = 2 := by
    rw [hw]
    norm_num
  have hclampH : max 0 (min ((ctxC.height : ℤ) - 1) 2) = 2 := by
    rw [hh]
    norm_num
  have hcore : mmCore ctxC 0 0 50 (2, 2) (2, 2) (2, 2) = ⟨(5 : ℝ), (100 : ℝ), true⟩ := by
    simp only [mmCore, Prod.fst, Prod.snd, hclampW, hclampH]
    rw [mmStepSize_degenerate, runGrid_ctxC, runProbe_ctxC]
  rw [hcore, mmFinish_two]

lemma mmCorners_ctxB50 : mmCorners ctxB 0 0 50 = (some (2, 2), some (2, 2)) := by
  simp only [mmCorners]
  rw [geoToPixel_fallback ctxB _ _ ctxB_not_projected rfl,
      geoToPixel_fallback ctxB _ _ ctxB_not_projected rfl]
  norm_num [ctxB, round_eq, Real.cos_zero]

lemma steppedSampleGeo_ctxB_center : steppedSampleGeo ctxB 2 2 = some (0, 0) := by
  unfold steppedSampleGeo
  norm_num [ctxB]

lemma runGrid_ctxB : runGrid ctxB 0 0 50 2 2 2 2 1 mmInit = ⟨(100 : ℝ), (100 : ℝ), true⟩ := by
  unfold runGrid
  have hl : iterIdxs 2 2 1 = [2] := by decide
  rw [hl]
  simp only [List.foldl_cons, List.foldl_nil]
  unfold steppedBody
  rw [steppedSampleGeo_ctxB_center]
  dsimp only
  rw [if_neg (by rw [calculateDistance_self]; norm_num)]
  simp [ctxB, incorporate, mmInit, EReal.coe_lt_coe_iff]

lemma runProbe_ctxB :
    runProbe ctxB 2 2 ⟨(100 : ℝ), (100 : ℝ), true⟩ = ⟨(100 : ℝ), (100 : ℝ), true⟩ := by
  unfold runProbe
  have hl : iterIdxs (-2) 2 1 = [-2, -1, 0, 1, 2] := by decide
  rw [hl]
  simp only [List.foldl_cons, List.foldl_nil]
  simp [probeBody, incorporate, ctxB, EReal.coe_lt_coe_iff]

lemma getMinMax_ctxB50 : getMinMaxElevationInRadius ctxB 0 0 50 = (some 100, some 100) := by
  unfold getMinMaxElevationInRadius
  rw [mmCorners_ctxB50]
  dsimp only
  rw [geoToPixel_ctxB_center]
  dsimp only
  have hw : (ctxB.width : ℤ) = 4 := rfl
  have hh : (ctxB.height : ℤ) = 4 := rfl
  have hclampW : max 0 (min ((ctxB.width : ℤ) - 1) 2) = 2 := by
    rw [hw]
    norm_num
  have hclampH : max 0 (min ((ctxB.height : ℤ) - 1) 2) = 2 := by
    rw [hh]
    norm_num
  have hcore : mmCore ctxB 0 0 50 (2, 2) (2, 2) (2, 2) = ⟨(100 : ℝ), (100 : ℝ), true⟩ := by
    simp only [mmCore, Prod.fst, Prod.snd, hclampW, hclampH]
    rw [mmStepSize_degenerate, runGrid_ctxB, runProbe_ctxB]
  rw [hcore, mmFinish_two]

/-- C3 is refuted as stated: Configs B and C differ only at pixel (0, 2),
whose geographic location is two degrees of longitude (over 200 km) from
the query point, far beyond the 50 meter radius; yet the returned min
changes from 100 to 5 — the fixed neighbor probe incorporates that pixel
without any distance check. -/
theorem C3_radius_filter_counterexample :
    getMinMaxElevationInRadius ctxC 0 0 50 = (some 5, some 100) ∧
    getMinMaxElevationInRadius ctxB 0 0 50 = (some 100, some 100) ∧
    ctxC.elevationData[(8 : ℕ)]? = some 5 ∧
    ctxB.elevationData[(8 : ℕ)]? = some 100 ∧
    steppedSampleGeo ctxC 0 2 = some (-2, 0) ∧
    calculateDistance ((0 : ℝ), 0) (-2, 0) > 50 :=
  ⟨getMinMax_ctxC, getMinMax_ctxB50, rfl, rfl, steppedSampleGeo_ctxC_far,
    calculateDistance_two_deg_far⟩

/-- Witness for the amended C3 at a concrete far pixel of Config C. -/
theorem C3_grid_discards_far_pixels_amended_witness :
    steppedSampleGeo ctxC 0 2 = some (-2, 0) ∧
    calculateDistance ((0 : ℝ), 0) (-2, 0) > 50 ∧
    steppedBody ctxC 0 0 50 0 2 mmInit = mmInit :=
  ⟨steppedSampleGeo_ctxC_far, calculateDistance_two_deg_far,
    C3_grid_discards_far_pixels_amended ctxC 0 0 50 0 2 (-2) 0 mmInit
      steppedSampleGeo_ctxC_far calculateDistance_two_deg_far⟩

lemma mmCorners_ctxB200k :
    mmCorners ctxB 0 0 200000 = (some (0, 4), some (4, 0)) := by
  simp only [mmCorners]
  rw [geoToPixel_fallback ctxB _ _ ctxB_not_projected rfl,
      geoToPixel_fallback ctxB _ _ ctxB_not_projected rfl]
  norm_num [ctxB, round_eq, Real.cos_zero]

/-- Witness for the amended C2 on Config B: the query point's own pixel is
inside the raster, its elevation is 100, and the radius statistics bracket
it. -/
theorem C2_center_in_minmax_amended_witness :
    sampleElevation ctxB 0 0 = some 100 ∧
    geoToPixel ctxB 0 0 = some (2, 2) ∧
    (0 : ℤ) ≤ 2 ∧ (2 : ℤ) < (ctxB.width : ℤ) ∧ (0 : ℤ) ≤ 2 ∧ (2 : ℤ) < (ctxB.height : ℤ) ∧
    (mmCorners ctxB 0 0 200000).1 = some (0, 4) ∧
    (mmCorners ctxB 0 0 200000).2 = some (4, 0) ∧
    (∃ m M : ℝ, getMinMaxElevationInRadius ctxB 0 0 200000 = (some m, some M) ∧
      m ≤ 100 ∧ 100 ≤ M) :=
  ⟨sampleElevation_ctxB, geoToPixel_ctxB_center, by decide, by decide, by decide, by decide,
    by rw [mmCorners_ctxB200k], by rw [mmCorners_ctxB200k],
    C2_center_in_minmax_amended ctxB 0 0 200000 100 2 2 (0, 4) (4, 0)
      sampleElevation_ctxB geoToPixel_ctxB_center (by decide) (by decide) (by decide) (by decide)
      (by rw [mmCorners_ctxB200k]) (by rw [mmCorners_ctxB200k])⟩

/-- Config D: a tiny 2-by-2 raster near the origin (about 55 meter pixels),
all elevations 7; queries will come from far outside its extent. -/
def ctxD : Ctx where
  width := 2
  height := 2
  minX := 0
  minY := 0
  maxX := 1 / 1000
  maxY := 1 / 1000
  elevationData := [7, 7, 7, 7]
  noDataValue := none
  modelPixelScale := none
  modelTiepoint := none
  sourceProj := none
  toNative := fun _ _ => none
  toWGS := fun _ _ => none

lemma ctxD_not_projected : ¬ ctxD.isProjected := by
  norm_num [Ctx.isProjected, ctxD, abs_le]

lemma geoToPixel_ctxD_center : geoToPixel ctxD 50 (1 / 2000) = some (100000, 1) := by
  rw [geoToPixel_fallback ctxD 50 (1 / 2000) ctxD_not_projected rfl]
  norm_num [ctxD, round_eq]

lemma sampleElevation_ctxD : sampleElevation ctxD 50 (1 / 2000) = some 7 := by
  unfold sampleElevation
  rw [geoToPixel_ctxD_center]
  norm_num [ctxD]
  exact ⟨by simp, rfl⟩

/-- The horizontal pixel indices of the radius-window corners of the far
query on Config D (left symbolic: they involve the local longitude scale's
cosine and are irrelevant because the vertical window is empty). -/
def ctxD_minLonPx : ℤ :=
  round ((50 - 50 / (111320 * Real.cos (1 / 2000 * Real.pi / 180)) - ctxD.minX) /
    (ctxD.maxX - ctxD.minX) * (ctxD.width : ℝ))

def ctxD_maxLonPx : ℤ :=
  round ((50 + 50 / (111320 * Real.cos (1 / 2000 * Real.pi / 180)) - ctxD.minX) /
    (ctxD.maxX - ctxD.minX) * (ctxD.width : ℝ))

lemma mmCorners_ctxD : mmCorners ctxD 50 (1 / 2000) 50 =
    (some (ctxD_minLonPx, 2), some (ctxD_maxLonPx, 0)) := by
  simp only [mmCorners]
  rw [geoToPixel_fallback ctxD _ _ ctxD_not_projected rfl,
      geoToPixel_fallback ctxD _ _ ctxD_not_projected rfl]
  unfold ctxD_minLonPx ctxD_maxLonPx
  norm_num [ctxD, round_eq]

lemma runGrid_emptyY (c : Ctx) (lon lat r : ℝ) (ax bx ay cy step : ℤ) (s : MMState)
    (h : cy < ay) : runGrid c lon lat r ax bx ay cy step s = s := by
  have hempty : iterIdxs ay cy step = [] := by
    unfold iterIdxs
    rw [if_neg (by omega)]
  unfold runGrid
  rw [hempty]
  rfl

lemma runProbe_ctxD : runProbe ctxD 100000 1 mmInit = mmInit := by
  unfold runProbe
  have hl : iterIdxs (-2) 2 1 = [-2, -1, 0, 1, 2] := by decide
  rw [hl]
  simp only [List.foldl_cons, List.foldl_nil]
  simp [probeBody, ctxD]

lemma getMinMax_ctxD : getMinMaxElevationInRadius ctxD 50 (1 / 2000) 50 = (none, none) := by
  unfold getMinMaxElevationInRadius
  rw [mmCorners_ctxD]
  dsimp only
  rw [geoToPixel_ctxD_center]
  dsimp only
  have hh : (ctxD.height : ℤ) = 2 := rfl
  have hc1 : max 0 (min ((ctxD.height : ℤ) - 1) (2 : ℤ)) = 1 := by
    rw [hh]
    norm_num
  have hc2 : max 0 (min ((ctxD.height : ℤ) - 1) (0 : ℤ)) = 0 := by
    rw [hh]
    norm_num
  have hcore : mmCore ctxD 50 (1 / 2000) 50 (ctxD_minLonPx, 2) (ctxD_maxLonPx, 0)
      (100000, 1) = mmInit := by
    simp only [mmCore, hc1, hc2]
    rw [runGrid_emptyY _ _ _ _ _ _ _ _ _ _ (by norm_num), runProbe_ctxD]
  rw [hcore]
  rfl

/-- C2 is refuted as stated: the query point lies far outside the raster
extent, so sampleElevation silently clamps and returns a valid elevation,
while getMinMaxElevationInRadius finds no in-window in-radius pixel and its
neighbor probe skips the out-of-bounds center pixel — it returns null. -/
theorem C2_center_in_minmax_counterexample :
    sampleElevation ctxD 50 (1 / 2000) = some 7 ∧
    getMinMaxElevationInRadius ctxD 50 (1 / 2000) 50 = (none, none) :=
  ⟨sampleElevation_ctxD, getMinMax_ctxD⟩
